import Mathlib

/-!
Verification of the Adaptive Routing & Generation Pipeline
(`backend/ai.py` and the streaming emitter in `backend/main.py`).

Shallow embedding conventions:
* Python strings are Lean `String`; `len` is the character count `String.length`.
* The case-insensitive word-boundary regex searches (`re.search` of
  `\b(kw1|kw2|...)\b` with `re.IGNORECASE`) are embedded as an explicit scan
  over the character list (`searchFrom`); word characters are the ASCII
  `[A-Za-z0-9_]` of the patterns actually used.
* Monotonic-clock readings (`time.monotonic()`) are passed in explicitly as
  integers: the guard only ever subtracts the window from `now` and compares,
  so any linearly ordered time axis represents the float clock; wall-clock
  latency fields (`decision_ms`, `response_ms`) are environmental measurements
  and are modelled as `0`.
* The mutable `AdaptiveModelOptimizer` object is explicit state passing on
  `AMOState`; `route` returns the decision together with the successor state.
* Fallible code is `Except`: the blanket `except Exception` of `route` catches
  the result of `routeBody`, whose possible internal fault (the claim C5
  scenario) is injected through an explicit `fault` flag; the simulated
  provider fault `random.random() < 0.01` of `_provider_generate` is likewise
  an explicit boolean per invocation.
-/

/-! ## Tier and intent constants (`backend/ai.py` lines 12-25) -/

def TIER_LIGHT : String := "tier_light"

def TIER_STANDARD : String := "tier_standard"

def TIER_REASONING : String := "tier_reasoning"

def TIER_VISION : String := "tier_vision"

def INTENT_CASUAL_CHAT : String := "casual_chat"

def INTENT_KNOWLEDGE_QUESTION : String := "knowledge_question"

def INTENT_CODING_TASK : String := "coding_task"

def INTENT_DEBUGGING : String := "debugging"

def INTENT_IMAGE_ANALYSIS : String := "image_analysis"

def INTENT_EMOTIONAL_SUPPORT : String := "emotional_support"

def INTENT_UNKNOWN : String := "unknown"

/-- `STRONG_TIERS = {TIER_REASONING, TIER_VISION}` membership test. -/
def isStrong (tier : String) : Bool :=
  tier == TIER_REASONING || tier == TIER_VISION

/-! ## Python string primitives -/

/-- The whitespace characters dropped by Python `str.strip()` / `str.split()`. -/
def isPyWS (c : Char) : Bool :=
  c == ' ' || c == '\t' || c == '\n' || c == '\r' || c == '\x0b' || c == '\x0c'

/-- Python `str.strip()`: drop leading and trailing whitespace. -/
def pyStrip (s : String) : String :=
  String.mk (((s.data.dropWhile isPyWS).reverse.dropWhile isPyWS).reverse)

/-- Helper for `pySplit`: accumulate the current word (reversed) while scanning. -/
def pySplitAux (cur : List Char) : List Char → List (List Char)
  | [] => if cur.isEmpty then [] else [cur.reverse]
  | c :: rest =>
    if isPyWS c then
      if cur.isEmpty then pySplitAux [] rest
      else cur.reverse :: pySplitAux [] rest
    else pySplitAux (c :: cur) rest

/-- Python `str.split()` (no separator): maximal runs of non-whitespace,
empty pieces dropped.  This is also the spec's notion of the
"whitespace-delimited words" of a text. -/
def pySplit (s : String) : List String :=
  (pySplitAux [] s.data).map String.mk

/-- Helper for `splitSpaces`. -/
def splitSpacesAux (cur : List Char) : List Char → List (List Char)
  | [] => [cur.reverse]
  | c :: rest =>
    if c == ' ' then cur.reverse :: splitSpacesAux [] rest
    else splitSpacesAux (c :: cur) rest

/-- Python `str.split(" ")`: split at every single space character, keeping
empty pieces (so `"a  b"` gives `["a", "", "b"]` and `""` gives `[""]`). -/
def splitSpaces (s : String) : List String :=
  (splitSpacesAux [] s.data).map String.mk

/-- Python slicing `s[:n]` on strings. -/
def takeChars (n : Nat) (s : String) : String :=
  String.mk (s.data.take n)

/-- Python `" ".join(s.split()).strip()` (whitespace normalisation used by the
provider stub). -/
def pyNormalizeWS (s : String) : String :=
  pyStrip (String.intercalate " " (pySplit s))

/-! ## The keyword matcher (embedding of the compiled regexes, lines 27-32)

Each pattern has the shape `\b(alt1|alt2|...)\b` with `re.IGNORECASE` and is
only ever used through `.search(text)`, i.e. as the boolean "some alternative
occurs in `text` at word boundaries".  All alternatives start and end with a
word character, so the two `\b` anchors amount to: the character before the
match (if any) and the character after the match (if any) are not word
characters. -/

/-- Regex `\w` for the ASCII texts involved: `[A-Za-z0-9_]`. -/
def isWordChar (c : Char) : Bool :=
  c.isAlphanum || c == '_'

/-- ASCII lowering, the effect of `re.IGNORECASE` on these ASCII patterns. -/
def asciiLower (c : Char) : Char :=
  if 'A' ≤ c ∧ c ≤ 'Z' then Char.ofNat (c.toNat + 32) else c

/-- Try to read keyword `kw` (already lowercase) at the head of `text`,
case-insensitively; return the remaining text on success. -/
def matchKeywordCI : List Char → List Char → Option (List Char)
  | [], rest => some rest
  | _ :: _, [] => none
  | k :: ks, t :: ts => if asciiLower t == k then matchKeywordCI ks ts else none

/-- The `\b` anchor after the matched keyword: end of text or a non-word char. -/
def afterBoundaryOk : List Char → Bool
  | [] => true
  | c :: _ => !isWordChar c

/-- The `\b` anchor before the matched keyword: start of text or a non-word
char (the scan carries the previous character, if any). -/
def beforeBoundaryOk : Option Char → Bool
  | none => true
  | some c => !isWordChar c

/-- Whether keyword `kw` matches at the current position, with the after-match
boundary satisfied. -/
def keywordHereOk (kw text : List Char) : Bool :=
  match matchKeywordCI kw text with
  | some rest => afterBoundaryOk rest
  | none => false

/-- Scan every position of `text` for a boundary-delimited occurrence of
`kw`; `prev` is the character immediately before the current position. -/
def searchFrom (kw : List Char) (prev : Option Char) : List Char → Bool
  | [] => beforeBoundaryOk prev && keywordHereOk kw []
  | c :: ts =>
    (beforeBoundaryOk prev && keywordHereOk kw (c :: ts)) || searchFrom kw (some c) ts

/-- `bool(PATTERN.search(text))` for a pattern `\b(kw1|...|kwn)\b`. -/
def hasKeyword (kws : List String) (text : String) : Bool :=
  kws.any fun kw => searchFrom kw.data none text.data

/-- `GREETING_PATTERN` alternatives (line 27). -/
def GREETING_KEYWORDS : List String :=
  ["hi", "hello", "hey", "yo", "good morning", "good evening", "sup", "thanks", "thank you"]

/-- `KNOWLEDGE_PATTERN` alternatives (line 28). -/
def KNOWLEDGE_KEYWORDS : List String :=
  ["what", "why", "how", "explain", "difference", "define", "learn", "tutorial", "guide", "concept"]

/-- `CODING_PATTERN` alternatives (line 29). -/
def CODING_KEYWORDS : List String :=
  ["code", "function", "api", "algorithm", "class", "python", "javascript", "typescript", "sql",
   "react", "fastapi", "refactor", "implement"]

/-- `DEBUG_PATTERN` alternatives (line 30). -/
def DEBUG_KEYWORDS : List String :=
  ["debug", "bug", "error", "traceback", "stack", "exception", "crash", "failing", "failure",
   "fix", "log"]

/-- `IMAGE_PATTERN` alternatives (line 31). -/
def IMAGE_KEYWORDS : List String :=
  ["image", "photo", "screenshot", "picture", "diagram", "scan", "ocr", "visual"]

/-- `EMOTIONAL_PATTERN` alternatives (line 32). -/
def EMOTIONAL_KEYWORDS : List String :=
  ["sad", "anxious", "depressed", "lonely", "stressed", "panic", "overwhelmed", "grief", "burnout"]

/-! ## Intent classifier and tier selector (`backend/ai.py` lines 143-191) -/

/-- `detect_intent` (lines 143-169): ordered first-match keyword
classification over the stripped message. -/
def detect_intent (message : String) : String :=
  let text := pyStrip message
  if text = "" then INTENT_UNKNOWN
  else if hasKeyword IMAGE_KEYWORDS text then INTENT_IMAGE_ANALYSIS
  else if hasKeyword DEBUG_KEYWORDS text then INTENT_DEBUGGING
  else if hasKeyword CODING_KEYWORDS text then INTENT_CODING_TASK
  else if hasKeyword EMOTIONAL_KEYWORDS text then INTENT_EMOTIONAL_SUPPORT
  else if text.length ≤ 60 ∧ hasKeyword GREETING_KEYWORDS text then INTENT_CASUAL_CHAT
  else if hasKeyword KNOWLEDGE_KEYWORDS text ∨ text.data.getLast? = some '?' then
    INTENT_KNOWLEDGE_QUESTION
  else if (pySplit text).length ≤ 10 ∧ hasKeyword GREETING_KEYWORDS text then INTENT_CASUAL_CHAT
  else INTENT_UNKNOWN

/-- `select_model` (lines 172-191): (intent, message length) to tier. -/
def select_model (intent : String) (message_length : Nat) : String :=
  if message_length > 2000 then TIER_REASONING
  else if intent = INTENT_CASUAL_CHAT then TIER_LIGHT
  else if intent = INTENT_KNOWLEDGE_QUESTION then TIER_STANDARD
  else if intent = INTENT_CODING_TASK ∨ intent = INTENT_DEBUGGING then TIER_REASONING
  else if intent = INTENT_IMAGE_ANALYSIS then TIER_VISION
  else if intent = INTENT_EMOTIONAL_SUPPORT then TIER_STANDARD
  else TIER_STANDARD

/-! ## The overload guard state and the routing coordinator (lines 37-140) -/

/-- `RouteDecision` (lines 37-44).  `decision_ms` is a wall-clock measurement
and carries no information in the model; it is always `0` here. -/
structure RouteDecision where
  intent : String
  model_tier : String
  message_length : Nat
  decision_ms : ℤ
  downgraded : Bool
  reason : Option String
deriving DecidableEq

/-- `ResponseEnvelope` (lines 47-52); `response_ms` modelled as `0`. -/
structure ResponseEnvelope where
  text : String
  route : RouteDecision
  response_ms : ℤ
  fallback_used : Bool
deriving DecidableEq

/-- The mutable fields of `AdaptiveModelOptimizer` (lines 55-67) together with
its configuration.  Timestamps are rationals standing in for the monotonic
float clock readings. -/
structure AMOState where
  max_consecutive_strong : Nat
  spike_threshold : Nat
  spike_window_seconds : ℤ
  consecutive_strong : Nat
  strong_requests : List ℤ
deriving DecidableEq

/-- `AdaptiveModelOptimizer.__init__` (lines 56-67). -/
def mkOptimizer (max_consecutive_strong spike_threshold : Nat)
    (spike_window_seconds : ℤ) : AMOState :=
  ⟨max_consecutive_strong, spike_threshold, spike_window_seconds, 0, []⟩

/-- `_expire_old_spike_events` (lines 137-140): pop entries strictly older
than `now - spike_window_seconds` from the front of the deque. -/
def expire_old_spike_events (threshold : ℤ) : List ℤ → List ℤ
  | [] => []
  | t :: ts => if t < threshold then expire_old_spike_events threshold ts else t :: ts

/-- The body of the `try` block of `route` (lines 76-101): classification,
selection, and the guarded check-then-update.  A `fault = true` call models
an internal exception raised during classification/selection, before any
state update. -/
def routeBody (st : AMOState) (normalized : String) (message_length : Nat)
    (has_image : Bool) (now : ℤ) (fault : Bool) :
    Except Unit (String × String × Bool × Option String × AMOState) :=
  if fault then Except.error () else
    let intent0 := detect_intent normalized
    let intent := if has_image then INTENT_IMAGE_ANALYSIS else intent0
    let selected0 := select_model intent message_length
    let pruned := expire_old_spike_events (now - st.spike_window_seconds) st.strong_requests
    let checked :=
      if isStrong selected0 then
        if st.consecutive_strong ≥ st.max_consecutive_strong then
          (TIER_STANDARD, true, some "consecutive_strong_limit")
        else if pruned.length ≥ st.spike_threshold then
          (TIER_STANDARD, true, some "usage_spike")
        else (selected0, false, (none : Option String))
      else (selected0, false, (none : Option String))
    let st' :=
      if isStrong checked.1 then
        { st with consecutive_strong := st.consecutive_strong + 1,
                  strong_requests := pruned ++ [now] }
      else
        { st with consecutive_strong := 0, strong_requests := pruned }
    Except.ok (intent, checked.1, checked.2.1, checked.2.2, st')

/-- `AdaptiveModelOptimizer.route` (lines 69-125): the routing coordinator.
The blanket `except Exception` (lines 102-105) appears as the `Except.error`
branch: the degraded decision is produced and the guard state is untouched. -/
def route (st : AMOState) (message : String) (has_image : Bool) (now : ℤ)
    (fault : Bool) : RouteDecision × AMOState :=
  let normalized := pyStrip message
  let message_length := normalized.length
  match routeBody st normalized message_length has_image now fault with
  | Except.ok (intent, tier, downgraded, reason, st') =>
    (⟨intent, tier, message_length, 0, downgraded, reason⟩, st')
  | Except.error _ =>
    (⟨INTENT_UNKNOWN, TIER_STANDARD, message_length, 0, false, some "routing_failure"⟩, st)

/-- The intent `route` works with before guard checks: the classifier result,
overridden by the image flag (lines 77-79). -/
def routed_intent (message : String) (has_image : Bool) : String :=
  if has_image then INTENT_IMAGE_ANALYSIS else detect_intent (pyStrip message)

/-- The candidate tier of a message inside `route` before the guard may
downgrade it (line 81). -/
def routed_candidate (message : String) (has_image : Bool) : String :=
  select_model (routed_intent message has_image) (pyStrip message).length

/-- Candidate intent of a plain text message (no image flag). -/
def candidate_intent (message : String) : String :=
  detect_intent (pyStrip message)

/-- Candidate tier of a plain text message (no image flag). -/
def candidate_tier (message : String) : String :=
  routed_candidate message false

/-- Run a sequence of `route` calls, threading the guard state; each call is
(message, has_image, now, fault). -/
def run_routes (st : AMOState) : List (String × Bool × ℤ × Bool) → AMOState
  | [] => st
  | c :: rest => run_routes (route st c.1 c.2.1 c.2.2.1 c.2.2.2).2 rest

/-- The decisions produced by a sequence of `route` calls. -/
def route_decisions (st : AMOState) : List (String × Bool × ℤ × Bool) → List RouteDecision
  | [] => []
  | c :: rest =>
    (route st c.1 c.2.1 c.2.2.1 c.2.2.2).1 ::
      route_decisions (route st c.1 c.2.1 c.2.2.1 c.2.2.2).2 rest


/-! ## Generation orchestrator (`backend/ai.py` lines 194-272)

`_provider_generate` sleeps per tier (timing only, not modelled), may raise
the injected transient fault (`random.random() < 0.01` unless `force_stable`),
and otherwise composes the response text; the fault outcome of each invocation
is passed in as an explicit boolean. -/

/-- A provider invocation as recorded in the call trace of the orchestrator:
the tier requested and whether stabilized mode was on. -/
structure ProviderCall where
  model_tier : String
  force_stable : Bool
deriving DecidableEq

/-- The deterministic text composition of `_provider_generate`
(lines 255-272). -/
def provider_text (message : String) (image_context : Bool) (intent : String) : String :=
  let normalized := pyNormalizeWS message
  let body :=
    if intent = INTENT_DEBUGGING then
      "Technical assistant mode enabled. Share logs, expected behavior, and minimal reproduction steps. "
    else if intent = INTENT_CODING_TASK then
      "Implementation mode enabled. I will provide concise and reliable coding guidance. "
    else if intent = INTENT_IMAGE_ANALYSIS ∨ image_context = true then
      "Image analysis mode enabled. I can inspect text, structure, and visible anomalies from the upload. "
    else if intent = INTENT_EMOTIONAL_SUPPORT then
      "Support mode enabled. I will keep guidance calm, practical, and non-judgmental. "
    else if intent = INTENT_CASUAL_CHAT then
      "Light conversation mode enabled. "
    else "Standard assistance mode enabled. "
  if normalized ≠ "" then
    "Ghost is active. " ++ (body ++ ("Focus: \"" ++ (takeChars 180 normalized ++ "\".")))
  else
    "Ghost is active. Standard assistance mode enabled. Share your task and constraints."

/-- `_provider_generate` (lines 234-272), with the injected-fault outcome of
this invocation given by `fault`; the `model_tier` argument only selects the
sleep duration in the source and does not influence the produced text. -/
def provider_generate (_model_tier : String) (message : String) (image_context : Bool)
    (intent : String) (force_stable : Bool) (fault : Bool) : Except Unit String :=
  if !force_stable && fault then Except.error ()
  else Except.ok (provider_text message image_context intent)

/-- `generate_ai_response` (lines 194-231).  `fault1` and `fault2` are the
injected-fault outcomes of the first and (if reached) second provider
invocation; the returned triple also carries the successor guard state and
the trace of provider invocations actually made. -/
def generate_ai_response (message : String) (image_context : Bool) (st : AMOState)
    (now : ℤ) (routeArg : Option RouteDecision) (fault1 fault2 : Bool) :
    ResponseEnvelope × AMOState × List ProviderCall :=
  let has_image := image_context
  let picked :=
    match routeArg with
    | some r => (r, st)
    | none => route st message has_image now false
  let selected_route := picked.1
  let st' := picked.2
  match provider_generate selected_route.model_tier message image_context
      selected_route.intent false fault1 with
  | Except.ok text =>
    (⟨text, selected_route, 0, false⟩, st', [⟨selected_route.model_tier, false⟩])
  | Except.error _ =>
    match provider_generate TIER_STANDARD message image_context
        selected_route.intent true fault2 with
    | Except.ok text =>
      (⟨text, selected_route, 0, true⟩, st',
        [⟨selected_route.model_tier, false⟩, ⟨TIER_STANDARD, true⟩])
    | Except.error _ =>
      (⟨"Ghost fallback: assistant core is online. Please retry in a moment.",
        selected_route, 0, true⟩, st',
        [⟨selected_route.model_tier, false⟩, ⟨TIER_STANDARD, true⟩])

/-! ## Streaming emitter (`backend/main.py` lines 539-597)

Only the frame sequence is modelled: the SSE serialisation, the pacing sleeps
and the persistence calls carry no ordering content beyond the list order. -/

/-- The three-field output shape of the moderation collaborator
(`backend/moderation.py` lines 21-25). -/
structure ModerationResult where
  display_text : String
  original_text : String
  moderated : Bool
deriving DecidableEq

/-- One transport frame of the stream, by event name and payload. -/
inductive Frame where
  | meta (debug_mode : Bool) (show_image_tools : Bool)
  | chunk (text : String)
  | done (moderated : Bool) (masked_text : String) (raw_text : Option String)
deriving DecidableEq

/-- Whether a frame is a `chunk` frame. -/
def Frame.isChunk : Frame → Bool
  | .chunk _ => true
  | _ => false

/-- Whether a frame is a `meta` frame. -/
def Frame.isMeta : Frame → Bool
  | .meta _ _ => true
  | _ => false

/-- Whether a frame is a `done` frame. -/
def Frame.isDone : Frame → Bool
  | .done _ _ _ => true
  | _ => false

/-- The text payload of a `chunk` frame, if any. -/
def Frame.chunkText : Frame → Option String
  | .chunk t => some t
  | _ => none

/-- The ordered frame sequence produced by `event_stream` for a finalized
response (lines 543 and 586-597): one `meta` frame, then one `chunk` frame
per piece of `display_text.split(" ")` with a trailing space appended, then
the terminal `done` frame. -/
def event_stream_frames (debug_mode show_image_tools : Bool) (m : ModerationResult) :
    List Frame :=
  Frame.meta debug_mode show_image_tools ::
    ((splitSpaces m.display_text).map fun w => Frame.chunk (w ++ " ")) ++
    [Frame.done m.moderated m.display_text
      (if m.moderated then some m.original_text else none)]


/-- A 2001-character message (no whitespace, so stripping keeps it whole). -/
def longMessage : String :=
  String.mk (List.replicate 2001 'a')

/-- Oldest-first (non-decreasing) order of a timestamp list, as an executable
check. -/
def nonDecr : List ℤ → Bool
  | [] => true
  | [_] => true
  | a :: b :: rest => decide (a ≤ b) && nonDecr (b :: rest)

/-- The guard-state invariant at logical time `t`: configuration fields hold
`mMax`/`sThr`, the streak is within the limit, the record is within the
threshold, oldest-first, and nothing in it is newer than `t`. -/
def GuardInv (mMax sThr : Nat) (st : AMOState) (t : ℤ) : Prop :=
  st.max_consecutive_strong = mMax ∧ st.spike_threshold = sThr ∧
  st.consecutive_strong ≤ mMax ∧ st.strong_requests.length ≤ sThr ∧
  nonDecr st.strong_requests = true ∧ ∀ x ∈ st.strong_requests, x ≤ t

/-! ## Behaviour of a single `route` call, by case -/

/-- An internal fault during classification/selection is converted into the
degraded decision and leaves the guard state untouched (lines 102-105). -/
lemma route_fault_eq (st : AMOState) (message : String) (img : Bool) (now : ℤ) :
    route st message img now true =
      (⟨INTENT_UNKNOWN, TIER_STANDARD, (pyStrip message).length, 0, false,
        some "routing_failure"⟩, st) := by
  simp [route, routeBody]

/-- A strong candidate admitted by both guard checks: the candidate tier is
kept, the streak grows and `now` is appended to the (pruned) spike record. -/
lemma route_strong_admitted (st : AMOState) (m : String) (img : Bool) (now : ℤ)
    (hstrong : isStrong (routed_candidate m img) = true)
    (hc : st.consecutive_strong < st.max_consecutive_strong)
    (hs : (expire_old_spike_events (now - st.spike_window_seconds) st.strong_requests).length
            < st.spike_threshold) :
    route st m img now false =
      (⟨routed_intent m img, routed_candidate m img, (pyStrip m).length, 0, false, none⟩,
       { st with consecutive_strong := st.consecutive_strong + 1,
                 strong_requests :=
                   expire_old_spike_events (now - st.spike_window_seconds) st.strong_requests
                     ++ [now] }) := by
  have hc' : ¬ st.consecutive_strong ≥ st.max_consecutive_strong := Nat.not_le.mpr hc
  have hs' : ¬ (expire_old_spike_events (now - st.spike_window_seconds) st.strong_requests).length
      ≥ st.spike_threshold := Nat.not_le.mpr hs
  simp only [routed_candidate, routed_intent] at hstrong
  simp [route, routeBody, routed_intent, routed_candidate, hstrong, hc', hs']

/-- A strong candidate hitting the consecutive-strong limit: downgraded to
standard with reason `consecutive_strong_limit`, and the streak resets
(the downgraded request counts as non-strong for the update phase). -/
lemma route_consecutive_limit (st : AMOState) (m : String) (img : Bool) (now : ℤ)
    (hstrong : isStrong (routed_candidate m img) = true)
    (hc : st.consecutive_strong ≥ st.max_consecutive_strong) :
    route st m img now false =
      (⟨routed_intent m img, TIER_STANDARD, (pyStrip m).length, 0, true,
        some "consecutive_strong_limit"⟩,
       { st with consecutive_strong := 0,
                 strong_requests :=
                   expire_old_spike_events (now - st.spike_window_seconds) st.strong_requests }) := by
  have hstd : isStrong TIER_STANDARD = false := by decide
  simp only [routed_candidate, routed_intent] at hstrong
  simp [route, routeBody, routed_intent, routed_candidate, hstrong, hc, hstd]

/-- A strong candidate passing the consecutive check but hitting the spike
limit: downgraded with reason `usage_spike`, streak resets. -/
lemma route_usage_spike (st : AMOState) (m : String) (img : Bool) (now : ℤ)
    (hstrong : isStrong (routed_candidate m img) = true)
    (hc : st.consecutive_strong < st.max_consecutive_strong)
    (hs : (expire_old_spike_events (now - st.spike_window_seconds) st.strong_requests).length
            ≥ st.spike_threshold) :
    route st m img now false =
      (⟨routed_intent m img, TIER_STANDARD, (pyStrip m).length, 0, true, some "usage_spike"⟩,
       { st with consecutive_strong := 0,
                 strong_requests :=
                   expire_old_spike_events (now - st.spike_window_seconds) st.strong_requests }) := by
  have hstd : isStrong TIER_STANDARD = false := by decide
  have hc' : ¬ st.consecutive_strong ≥ st.max_consecutive_strong := Nat.not_le.mpr hc
  simp only [routed_candidate, routed_intent] at hstrong
  simp [route, routeBody, routed_intent, routed_candidate, hstrong, hc', hs, hstd]

/-- A non-strong candidate: kept as is, no downgrade, streak resets. -/
lemma route_nonstrong (st : AMOState) (m : String) (img : Bool) (now : ℤ)
    (hweak : isStrong (routed_candidate m img) = false) :
    route st m img now false =
      (⟨routed_intent m img, routed_candidate m img, (pyStrip m).length, 0, false, none⟩,
       { st with consecutive_strong := 0,
                 strong_requests :=
                   expire_old_spike_events (now - st.spike_window_seconds) st.strong_requests }) := by
  simp only [routed_candidate, routed_intent] at hweak
  simp [route, routeBody, routed_intent, routed_candidate, hweak]

/-! ## Claim C5: fail-open routing -/

/-- C5: if an internal fault is raised during classification or selection
inside a `route` call, the call still returns a `RouteDecision` with
`intent = unknown`, `tier = standard`, `downgraded = false` and
`reason = "routing_failure"`, leaving the guard state untouched; `route`
is a total function of its inputs (the caught `Except.error` is the only
failure channel), so a decision is produced for every input and no
exception propagates. -/
theorem c5_route_fail_open (st : AMOState) (message : String) (img : Bool) (now : ℤ) :
    route st message img now true =
      (⟨INTENT_UNKNOWN, TIER_STANDARD, (pyStrip message).length, 0, false,
        some "routing_failure"⟩, st) :=
  route_fault_eq st message img now

/-! ## Claim C7: long messages always select the reasoning tier -/

/-- `select_model` with length over 2000 ignores the intent entirely
(line 173). -/
lemma select_model_of_long (intent : String) (n : Nat) (h : n > 2000) :
    select_model intent n = TIER_REASONING := by
  simp [select_model, h]

/-- C7: for every intent value (listed or unlisted) and every message length
strictly greater than 2000, `select_model` returns the reasoning tier. -/
theorem c7_long_message_reasoning (intent : String) (n : Nat) (h : n > 2000) :
    select_model intent n = TIER_REASONING :=
  select_model_of_long intent n h

/-- Witness for C7 at an unlisted intent value and length 2001. -/
theorem c7_long_message_reasoning_witness :
    2001 > 2000 ∧ select_model "no_such_intent" 2001 = TIER_REASONING :=
  ⟨by decide, c7_long_message_reasoning "no_such_intent" 2001 (by decide)⟩

/-! ## Claim C8: image keywords have top priority in `detect_intent` -/

/-- C8: any message whose stripped text contains an image/visual keyword (in
the sense of the source's `IMAGE_PATTERN` search) classifies to
`image_analysis`, regardless of whatever debugging or coding keywords are
also present: the image check is the first keyword check (lines 148-149). -/
theorem c8_image_keyword_priority (message : String)
    (h : hasKeyword IMAGE_KEYWORDS (pyStrip message) = true) :
    detect_intent message = INTENT_IMAGE_ANALYSIS := by
  by_cases he : pyStrip message = ""
  · rw [he] at h
    exact absurd h (by decide)
  · simp [detect_intent, he, h]

/-- Witness for C8 on a message that also contains debugging and coding
keywords ("debug", "error", "code") next to the image keyword
"screenshot". -/
theorem c8_image_keyword_priority_witness :
    hasKeyword IMAGE_KEYWORDS (pyStrip "debug this error in my code screenshot") = true ∧
    detect_intent "debug this error in my code screenshot" = INTENT_IMAGE_ANALYSIS :=
  ⟨by decide, c8_image_keyword_priority "debug this error in my code screenshot" (by decide)⟩

/-! ## Claim C2: image attachments and the final tier

The claim as frozen says the final tier is `vision` "regardless of the text
content of the message".  That is false: `select_model` checks the message
length before the intent (line 173), so a message longer than 2000 characters
with an image attachment is routed to `reasoning`, not `vision`. -/

/-- `dropWhile isPyWS` does nothing on a run of `'a'`s. -/
lemma dropWhile_isPyWS_replicate_a (n : Nat) :
    List.dropWhile isPyWS (List.replicate n 'a') = List.replicate n 'a' := by
  cases n with
  | zero => rfl
  | succ k =>
    rw [List.replicate_succ, List.dropWhile_cons]
    simp [isPyWS]

/-- Stripping does not change `longMessage`. -/
lemma pyStrip_longMessage : pyStrip longMessage = longMessage := by
  unfold pyStrip longMessage
  rw [show (String.mk (List.replicate 2001 'a')).data = List.replicate 2001 'a' from rfl,
    dropWhile_isPyWS_replicate_a, List.reverse_replicate, dropWhile_isPyWS_replicate_a,
    List.reverse_replicate]

/-- The stripped `longMessage` has 2001 characters. -/
lemma pyStrip_longMessage_length : (pyStrip longMessage).length = 2001 := by
  rw [pyStrip_longMessage]
  show (List.replicate 2001 'a').length = 2001
  rw [List.length_replicate]

/-- The candidate tier for `longMessage` with an image attachment is
`reasoning`: the length override beats the image intent. -/
lemma routed_candidate_longMessage :
    routed_candidate longMessage true = TIER_REASONING := by
  unfold routed_candidate
  rw [pyStrip_longMessage_length]
  exact select_model_of_long _ _ (by norm_num)

/-- C2 counterexample: on a fresh guard, `longMessage` (2001 characters of
text) with an explicit image attachment yields intent `image_analysis` but
final tier `reasoning`, not `vision` — refuting "final tier vision regardless
of the text content". -/
theorem c2_image_vision_counterexample :
    (route (mkOptimizer 3 10 60) longMessage true 0 false).1.intent = INTENT_IMAGE_ANALYSIS ∧
    (route (mkOptimizer 3 10 60) longMessage true 0 false).1.model_tier = TIER_REASONING ∧
    (route (mkOptimizer 3 10 60) longMessage true 0 false).1.model_tier ≠ TIER_VISION := by
  have hstrong : isStrong (routed_candidate longMessage true) = true := by
    rw [routed_candidate_longMessage]; decide
  have h := route_strong_admitted (mkOptimizer 3 10 60) longMessage true 0 hstrong (by decide) (by decide)
  have hint : routed_intent longMessage true = INTENT_IMAGE_ANALYSIS := by
    simp [routed_intent]
  rw [routed_candidate_longMessage, pyStrip_longMessage_length, hint] at h
  exact ⟨by rw [h], by rw [h], by rw [h]; decide⟩

/-- C2 amended: for every message with an explicit image attachment whose
stripped text has at most 2000 characters, a `route` call on a guard that
admits a strong candidate (streak below the limit, pruned spike record below
the threshold — e.g. a fresh guard) yields intent `image_analysis` and final
tier `vision`. -/
theorem c2_image_vision_amended (st : AMOState) (message : String) (now : ℤ)
    (hlen : (pyStrip message).length ≤ 2000)
    (hc : st.consecutive_strong < st.max_consecutive_strong)
    (hs : (expire_old_spike_events (now - st.spike_window_seconds) st.strong_requests).length
            < st.spike_threshold) :
    (route st message true now false).1.intent = INTENT_IMAGE_ANALYSIS ∧
    (route st message true now false).1.model_tier = TIER_VISION := by
  have hcand : routed_candidate message true = TIER_VISION := by
    have h1 : routed_candidate message true
        = select_model INTENT_IMAGE_ANALYSIS (pyStrip message).length := by
      simp [routed_candidate, routed_intent]
    rw [h1]
    unfold select_model
    rw [if_neg (Nat.not_lt.mpr hlen)]
    decide
  have hstrong : isStrong (routed_candidate message true) = true := by
    rw [hcand]; decide
  rw [route_strong_admitted st message true now hstrong hc hs]
  exact ⟨by simp [routed_intent], by simpa using hcand⟩

/-- Witness for C2 amended: a fresh default guard and a short message. -/
theorem c2_image_vision_witness :
    ((pyStrip "please review").length ≤ 2000 ∧
      (mkOptimizer 3 10 60).consecutive_strong < (mkOptimizer 3 10 60).max_consecutive_strong ∧
      (expire_old_spike_events ((0 : ℤ) - (mkOptimizer 3 10 60).spike_window_seconds)
          (mkOptimizer 3 10 60).strong_requests).length < (mkOptimizer 3 10 60).spike_threshold) ∧
    (route (mkOptimizer 3 10 60) "please review" true 0 false).1.intent = INTENT_IMAGE_ANALYSIS ∧
    (route (mkOptimizer 3 10 60) "please review" true 0 false).1.model_tier = TIER_VISION :=
  ⟨⟨by decide, by decide, by decide⟩,
    c2_image_vision_amended (mkOptimizer 3 10 60) "please review" 0 (by decide) (by decide)
      (by decide)⟩

/-! ## Claim C3: the consecutive-strong limit scenario -/

/-- Without an image flag, the routed intent is the classifier's result. -/
lemma routed_intent_false (m : String) : routed_intent m false = candidate_intent m := by
  simp [routed_intent, candidate_intent]

/-- Without an image flag, the routed candidate tier is `candidate_tier`. -/
lemma routed_candidate_false (m : String) : routed_candidate m false = candidate_tier m := rfl

/-- C3: on a fresh guard with `max_consecutive_strong = 3` (spike threshold 10,
not reached), four consecutive `route` calls whose messages each classify to a
strong tier produce the candidate (strong) tiers three times and then a
downgrade to `standard` with `downgraded = true` and
`reason = "consecutive_strong_limit"`; a fifth, non-strong request then keeps
the streak at zero, so a sixth strong-classified request is admitted to its
strong tier again. -/
theorem c3_consecutive_strong_scenario (m1 m2 m3 m4 m5 m6 : String)
    (h1 : isStrong (candidate_tier m1) = true) (h2 : isStrong (candidate_tier m2) = true)
    (h3 : isStrong (candidate_tier m3) = true) (h4 : isStrong (candidate_tier m4) = true)
    (h5 : isStrong (candidate_tier m5) = false) (h6 : isStrong (candidate_tier m6) = true) :
    route_decisions (mkOptimizer 3 10 60)
      [(m1, false, 0, false), (m2, false, 0, false), (m3, false, 0, false),
       (m4, false, 0, false), (m5, false, 0, false), (m6, false, 0, false)] =
      [⟨candidate_intent m1, candidate_tier m1, (pyStrip m1).length, 0, false, none⟩,
       ⟨candidate_intent m2, candidate_tier m2, (pyStrip m2).length, 0, false, none⟩,
       ⟨candidate_intent m3, candidate_tier m3, (pyStrip m3).length, 0, false, none⟩,
       ⟨candidate_intent m4, TIER_STANDARD, (pyStrip m4).length, 0, true,
         some "consecutive_strong_limit"⟩,
       ⟨candidate_intent m5, candidate_tier m5, (pyStrip m5).length, 0, false, none⟩,
       ⟨candidate_intent m6, candidate_tier m6, (pyStrip m6).length, 0, false, none⟩] := by
  have e1 : route (mkOptimizer 3 10 60) m1 false 0 false =
      (⟨candidate_intent m1, candidate_tier m1, (pyStrip m1).length, 0, false, none⟩,
        (⟨3, 10, 60, 1, [0]⟩ : AMOState)) := by
    have h := route_strong_admitted (mkOptimizer 3 10 60) m1 false 0 h1 (by decide) (by decide)
    rw [routed_intent_false, routed_candidate_false] at h
    refine h.trans ?_
    rw [Prod.mk.injEq]
    exact ⟨rfl, by decide⟩
  have e2 : route (⟨3, 10, 60, 1, [0]⟩ : AMOState) m2 false 0 false =
      (⟨candidate_intent m2, candidate_tier m2, (pyStrip m2).length, 0, false, none⟩,
        (⟨3, 10, 60, 2, [0, 0]⟩ : AMOState)) := by
    have h := route_strong_admitted ⟨3, 10, 60, 1, [0]⟩ m2 false 0 h2 (by decide) (by decide)
    rw [routed_intent_false, routed_candidate_false] at h
    refine h.trans ?_
    rw [Prod.mk.injEq]
    exact ⟨rfl, by decide⟩
  have e3 : route (⟨3, 10, 60, 2, [0, 0]⟩ : AMOState) m3 false 0 false =
      (⟨candidate_intent m3, candidate_tier m3, (pyStrip m3).length, 0, false, none⟩,
        (⟨3, 10, 60, 3, [0, 0, 0]⟩ : AMOState)) := by
    have h := route_strong_admitted ⟨3, 10, 60, 2, [0, 0]⟩ m3 false 0 h3 (by decide) (by decide)
    rw [routed_intent_false, routed_candidate_false] at h
    refine h.trans ?_
    rw [Prod.mk.injEq]
    exact ⟨rfl, by decide⟩
  have e4 : route (⟨3, 10, 60, 3, [0, 0, 0]⟩ : AMOState) m4 false 0 false =
      (⟨candidate_intent m4, TIER_STANDARD, (pyStrip m4).length, 0, true,
          some "consecutive_strong_limit"⟩,
        (⟨3, 10, 60, 0, [0, 0, 0]⟩ : AMOState)) := by
    have h := route_consecutive_limit ⟨3, 10, 60, 3, [0, 0, 0]⟩ m4 false 0 h4 (by decide)
    rw [routed_intent_false] at h
    refine h.trans ?_
    rw [Prod.mk.injEq]
    exact ⟨rfl, by decide⟩
  have e5 : route (⟨3, 10, 60, 0, [0, 0, 0]⟩ : AMOState) m5 false 0 false =
      (⟨candidate_intent m5, candidate_tier m5, (pyStrip m5).length, 0, false, none⟩,
        (⟨3, 10, 60, 0, [0, 0, 0]⟩ : AMOState)) := by
    have h := route_nonstrong ⟨3, 10, 60, 0, [0, 0, 0]⟩ m5 false 0 h5
    rw [routed_intent_false, routed_candidate_false] at h
    refine h.trans ?_
    rw [Prod.mk.injEq]
    exact ⟨rfl, by decide⟩
  have e6 : route (⟨3, 10, 60, 0, [0, 0, 0]⟩ : AMOState) m6 false 0 false =
      (⟨candidate_intent m6, candidate_tier m6, (pyStrip m6).length, 0, false, none⟩,
        (⟨3, 10, 60, 1, [0, 0, 0, 0]⟩ : AMOState)) := by
    have h := route_strong_admitted ⟨3, 10, 60, 0, [0, 0, 0]⟩ m6 false 0 h6 (by decide) (by decide)
    rw [routed_intent_false, routed_candidate_false] at h
    refine h.trans ?_
    rw [Prod.mk.injEq]
    exact ⟨rfl, by decide⟩
  simp only [route_decisions, e1, e2, e3, e4, e5, e6]

/-- Witness for C3: four debugging messages (strong candidate `reasoning`),
then a greeting (non-strong `light`), then a debugging message again. -/
theorem c3_consecutive_strong_scenario_witness :
    route_decisions (mkOptimizer 3 10 60)
      [("debug crash", false, 0, false), ("debug crash", false, 0, false),
       ("debug crash", false, 0, false), ("debug crash", false, 0, false),
       ("hi", false, 0, false), ("debug crash", false, 0, false)] =
      [⟨"debugging", "tier_reasoning", 11, 0, false, none⟩,
       ⟨"debugging", "tier_reasoning", 11, 0, false, none⟩,
       ⟨"debugging", "tier_reasoning", 11, 0, false, none⟩,
       ⟨"debugging", "tier_standard", 11, 0, true, some "consecutive_strong_limit"⟩,
       ⟨"casual_chat", "tier_light", 2, 0, false, none⟩,
       ⟨"debugging", "tier_reasoning", 11, 0, false, none⟩] := by
  have h := c3_consecutive_strong_scenario "debug crash" "debug crash" "debug crash"
    "debug crash" "hi" "debug crash" (by decide) (by decide) (by decide) (by decide)
    (by decide) (by decide)
  exact h.trans (by decide)

/-! ## Claim C4: the spike window -/

/-- Pruning empties the record when every timestamp is older than the
window. -/
lemma expire_old_eq_nil (threshold : ℤ) :
    ∀ l : List ℤ, (∀ x ∈ l, x < threshold) → expire_old_spike_events threshold l = [] := by
  intro l
  induction l with
  | nil => intro _; rfl
  | cons t ts ih =>
    intro h
    rw [expire_old_spike_events, if_pos (h t (by simp))]
    exact ih fun x hx => h x (by simp [hx])

/-- C4: for a `route` call whose candidate tier is strong and whose
consecutive-strong streak is below the limit, (a) if the pruned spike record
already holds at least `spike_threshold` timestamps the call is downgraded to
`standard` with `reason = "usage_spike"`; (b) if instead the consecutive
limit has been reached, the recorded reason is `"consecutive_strong_limit"`
even when the spike record is over threshold — the consecutive check takes
precedence; (c) once every recorded timestamp is older than the window at the
start of the call (and the threshold is positive), pruning empties the record
and a strong candidate is admitted again, the new record holding just `now`. -/
theorem c4_usage_spike_window (st : AMOState) (m : String) (now : ℤ)
    (hstrong : isStrong (candidate_tier m) = true) :
    (st.consecutive_strong < st.max_consecutive_strong →
      (expire_old_spike_events (now - st.spike_window_seconds) st.strong_requests).length
          ≥ st.spike_threshold →
      (route st m false now false).1.model_tier = TIER_STANDARD ∧
      (route st m false now false).1.downgraded = true ∧
      (route st m false now false).1.reason = some "usage_spike") ∧
    (st.consecutive_strong ≥ st.max_consecutive_strong →
      (route st m false now false).1.reason = some "consecutive_strong_limit") ∧
    (st.consecutive_strong < st.max_consecutive_strong →
      (∀ x ∈ st.strong_requests, x < now - st.spike_window_seconds) →
      0 < st.spike_threshold →
      (route st m false now false).1.model_tier = candidate_tier m ∧
      (route st m false now false).1.downgraded = false ∧
      (route st m false now false).2.strong_requests = [now]) := by
  refine ⟨?_, ?_, ?_⟩
  · intro hc hs
    rw [route_usage_spike st m false now hstrong hc hs]
    exact ⟨rfl, rfl, rfl⟩
  · intro hc
    rw [route_consecutive_limit st m false now hstrong hc]
  · intro hc hold hpos
    have hnil : expire_old_spike_events (now - st.spike_window_seconds) st.strong_requests
        = [] := expire_old_eq_nil _ _ hold
    have hs : (expire_old_spike_events (now - st.spike_window_seconds)
        st.strong_requests).length < st.spike_threshold := by
      rw [hnil]; exact hpos
    rw [route_strong_admitted st m false now hstrong hc hs]
    refine ⟨by rw [routed_candidate_false], rfl, ?_⟩
    show expire_old_spike_events (now - st.spike_window_seconds) st.strong_requests ++ [now]
        = [now]
    rw [hnil]
    rfl

/-- Witness for C4: part (a) at a guard whose pruned record is at threshold;
part (b) at a guard over both limits (precedence); part (c) at a guard whose
two recorded timestamps are both stale. -/
theorem c4_usage_spike_window_witness :
    ((route (⟨3, 2, 60, 0, [0, 0]⟩ : AMOState) "debug crash" false 1 false).1.model_tier
        = TIER_STANDARD ∧
      (route (⟨3, 2, 60, 0, [0, 0]⟩ : AMOState) "debug crash" false 1 false).1.downgraded
        = true ∧
      (route (⟨3, 2, 60, 0, [0, 0]⟩ : AMOState) "debug crash" false 1 false).1.reason
        = some "usage_spike") ∧
    ((route (⟨3, 2, 60, 3, [0, 0]⟩ : AMOState) "debug crash" false 1 false).1.reason
        = some "consecutive_strong_limit") ∧
    ((route (⟨3, 2, 60, 0, [0, 0]⟩ : AMOState) "debug crash" false 100 false).1.model_tier
        = candidate_tier "debug crash" ∧
      (route (⟨3, 2, 60, 0, [0, 0]⟩ : AMOState) "debug crash" false 100 false).1.downgraded
        = false ∧
      (route (⟨3, 2, 60, 0, [0, 0]⟩ : AMOState) "debug crash" false 100 false).2.strong_requests
        = [100]) :=
  ⟨(c4_usage_spike_window ⟨3, 2, 60, 0, [0, 0]⟩ "debug crash" 1 (by decide)).1
      (by decide) (by decide),
    (c4_usage_spike_window ⟨3, 2, 60, 3, [0, 0]⟩ "debug crash" 1 (by decide)).2.1 (by decide),
    (c4_usage_spike_window ⟨3, 2, 60, 0, [0, 0]⟩ "debug crash" 100 (by decide)).2.2
      (by decide) (by decide) (by decide)⟩

/-! ## Claim C10: invariants of the guard state -/

/-- The tail of a non-decreasing list is non-decreasing. -/
lemma nonDecr_tail (a : ℤ) (l : List ℤ) (h : nonDecr (a :: l) = true) : nonDecr l = true := by
  cases l with
  | nil => rfl
  | cons b rest =>
    rw [nonDecr, Bool.and_eq_true] at h
    exact h.2

/-- Appending an upper bound to a non-decreasing list keeps it
non-decreasing. -/
lemma nonDecr_append_last :
    ∀ (l : List ℤ) (a : ℤ), nonDecr l = true → (∀ x ∈ l, x ≤ a) →
      nonDecr (l ++ [a]) = true
  | [], _, _, _ => rfl
  | [x], a, _, hb => by
    have hxa : x ≤ a := hb x (by simp)
    show nonDecr (x :: [a]) = true
    rw [nonDecr, Bool.and_eq_true]
    exact ⟨by simpa using hxa, rfl⟩
  | x :: y :: rest, a, hl, hb => by
    rw [nonDecr, Bool.and_eq_true] at hl
    have ih := nonDecr_append_last (y :: rest) a hl.2
      fun z hz => hb z (List.mem_cons_of_mem x hz)
    show nonDecr (x :: y :: (rest ++ [a])) = true
    rw [nonDecr, Bool.and_eq_true]
    exact ⟨hl.1, ih⟩

/-- Pruning never lengthens the record. -/
lemma expire_old_length_le (threshold : ℤ) :
    ∀ l : List ℤ, (expire_old_spike_events threshold l).length ≤ l.length
  | [] => Nat.le_refl _
  | t :: ts => by
    rw [expire_old_spike_events]
    split
    · exact Nat.le_trans (expire_old_length_le threshold ts) (Nat.le_succ _)
    · exact Nat.le_refl _

/-- Every surviving timestamp was already recorded. -/
lemma expire_old_mem (threshold : ℤ) :
    ∀ (l : List ℤ) (x : ℤ), x ∈ expire_old_spike_events threshold l → x ∈ l
  | [], x, h => by simp [expire_old_spike_events] at h
  | t :: ts, x, h => by
    rw [expire_old_spike_events] at h
    split at h
    · exact List.mem_cons_of_mem t (expire_old_mem threshold ts x h)
    · exact h

/-- Pruning preserves non-decreasing order. -/
lemma expire_old_nonDecr (threshold : ℤ) :
    ∀ l : List ℤ, nonDecr l = true → nonDecr (expire_old_spike_events threshold l) = true
  | [], h => h
  | t :: ts, h => by
    rw [expire_old_spike_events]
    split
    · exact expire_old_nonDecr threshold ts (nonDecr_tail t ts h)
    · exact h

/-- One `route` call preserves the guard invariant, moving the time bound to
`now`. -/
lemma route_preserves_inv (mMax sThr : Nat) (st : AMOState) (m : String) (img : Bool)
    (now : ℤ) (fault : Bool) (t : ℤ) (hle : t ≤ now) (h : GuardInv mMax sThr st t) :
    GuardInv mMax sThr (route st m img now fault).2 now := by
  obtain ⟨hm, hs, hc, hlen, hnd, hbound⟩ := h
  have hPruned : GuardInv mMax sThr
      { st with consecutive_strong := 0,
                strong_requests :=
                  expire_old_spike_events (now - st.spike_window_seconds) st.strong_requests }
      now :=
    ⟨hm, hs, Nat.zero_le _,
      Nat.le_trans (expire_old_length_le _ _) (hs ▸ hlen),
      expire_old_nonDecr _ _ hnd,
      fun x hx => le_trans (hbound x (expire_old_mem _ _ x hx)) hle⟩
  cases fault with
  | true =>
    rw [route_fault_eq]
    exact ⟨hm, hs, hc, hlen, hnd, fun x hx => le_trans (hbound x hx) hle⟩
  | false =>
    by_cases hstrong : isStrong (routed_candidate m img) = true
    · by_cases hc2 : st.consecutive_strong < st.max_consecutive_strong
      · by_cases hs2 : (expire_old_spike_events (now - st.spike_window_seconds)
            st.strong_requests).length < st.spike_threshold
        · rw [route_strong_admitted st m img now hstrong hc2 hs2]
          refine ⟨hm, hs, ?_, ?_, ?_, ?_⟩
          · exact hm ▸ hc2
          · show (expire_old_spike_events (now - st.spike_window_seconds) st.strong_requests
                ++ [now]).length ≤ sThr
            rw [List.length_append]
            exact hs ▸ hs2
          · exact nonDecr_append_last _ now (expire_old_nonDecr _ _ hnd)
              fun x hx => le_trans (hbound x (expire_old_mem _ _ x hx)) hle
          · intro x hx
            rcases List.mem_append.mp hx with hx1 | hx2
            · exact le_trans (hbound x (expire_old_mem _ _ x hx1)) hle
            · simp at hx2
              exact hx2.le
        · rw [route_usage_spike st m img now hstrong hc2 (Nat.not_lt.mp hs2)]
          exact hPruned
      · rw [route_consecutive_limit st m img now hstrong (Nat.not_lt.mp hc2)]
        exact hPruned
    · rw [route_nonstrong st m img now (Bool.not_eq_true _ ▸ hstrong)]
      exact hPruned

/-- The invariant carried along a whole sequence of `route` calls with
non-decreasing clock readings. -/
lemma run_routes_inv (mMax sThr : Nat) :
    ∀ (calls : List (String × Bool × ℤ × Bool)) (st : AMOState) (t : ℤ),
      GuardInv mMax sThr st t →
      nonDecr (t :: calls.map fun c => c.2.2.1) = true →
      ∃ t2, GuardInv mMax sThr (run_routes st calls) t2
  | [], _, t, h, _ => ⟨t, h⟩
  | c :: rest, st, t, h, hmono => by
    rw [List.map_cons, nonDecr, Bool.and_eq_true] at hmono
    obtain ⟨h1, h2⟩ := hmono
    have hle : t ≤ c.2.2.1 := of_decide_eq_true h1
    have hstep := route_preserves_inv mMax sThr st c.1 c.2.1 c.2.2.1 c.2.2.2 t hle h
    exact run_routes_inv mMax sThr rest (route st c.1 c.2.1 c.2.2.1 c.2.2.2).2 c.2.2.1
      hstep h2

/-- C10: for every guard constructed with `max_consecutive_strong = mMax` and
`spike_threshold = sThr` (natural numbers, hence both nonnegative) and any
sequence of `route` calls whose clock readings are non-decreasing (the
monotonic clock), the final consecutive-strong counter never exceeds `mMax`,
the spike record never holds more than `sThr` timestamps, and the recorded
timestamps are in non-decreasing (oldest-first) order.  Since the calls list
is arbitrary, the same holds after every prefix, i.e. at all times. -/
theorem c10_guard_invariants (mMax sThr : Nat) (w : ℤ)
    (calls : List (String × Bool × ℤ × Bool))
    (hmono : nonDecr (calls.map fun c => c.2.2.1) = true) :
    (run_routes (mkOptimizer mMax sThr w) calls).consecutive_strong ≤ mMax ∧
    (run_routes (mkOptimizer mMax sThr w) calls).strong_requests.length ≤ sThr ∧
    nonDecr (run_routes (mkOptimizer mMax sThr w) calls).strong_requests = true := by
  cases calls with
  | nil => exact ⟨Nat.zero_le _, Nat.zero_le _, rfl⟩
  | cons c rest =>
    have hinit : GuardInv mMax sThr (mkOptimizer mMax sThr w) c.2.2.1 :=
      ⟨rfl, rfl, Nat.zero_le _, Nat.zero_le _, rfl, by simp [mkOptimizer]⟩
    rw [List.map_cons] at hmono
    have hmono2 : nonDecr (c.2.2.1 :: c.2.2.1 :: List.map (fun c => c.2.2.1) rest) = true := by
      rw [nonDecr, Bool.and_eq_true]
      exact ⟨by simp, hmono⟩
    obtain ⟨t2, hfin⟩ := run_routes_inv mMax sThr (c :: rest) (mkOptimizer mMax sThr w)
      c.2.2.1 hinit (by rw [List.map_cons]; exact hmono2)
    exact ⟨hfin.2.2.1, hfin.2.2.2.1, hfin.2.2.2.2.1⟩

/-- Witness for C10 on a concrete two-call sequence with increasing clock. -/
theorem c10_guard_invariants_witness :
    (run_routes (mkOptimizer 3 10 60)
        [("debug crash", false, 0, false), ("hi", false, 1, false)]).consecutive_strong ≤ 3 ∧
    (run_routes (mkOptimizer 3 10 60)
        [("debug crash", false, 0, false), ("hi", false, 1, false)]).strong_requests.length
      ≤ 10 ∧
    nonDecr (run_routes (mkOptimizer 3 10 60)
        [("debug crash", false, 0, false), ("hi", false, 1, false)]).strong_requests = true :=
  c10_guard_invariants 3 10 60 [("debug crash", false, 0, false), ("hi", false, 1, false)]
    (by decide)

/-! ## Claims C1 and C9: the generation orchestrator -/

/-- String concatenation concatenates the underlying character lists. -/
lemma string_data_append (s t : String) : (s ++ t).data = s.data ++ t.data := by
  cases s
  cases t
  rfl

/-- The seventh character of any `"Ghost is active. " ++ s` is `'i'`. -/
lemma ghost_active_char6 (s : String) :
    ("Ghost is active. " ++ s).data.get? 6 = some 'i' := by
  rw [string_data_append]
  rfl

/-- A string whose seventh character is `'i'` is not the terminal fallback
sentence (whose seventh character is `'f'`). -/
lemma ne_fallback_of_char6 (t : String) (h : t.data.get? 6 = some 'i') :
    t ≠ "Ghost fallback: assistant core is online. Please retry in a moment." := by
  intro heq
  rw [heq] at h
  exact absurd h (by decide)

/-- Any `"Ghost is active. " ++ s` is non-empty. -/
lemma ghost_active_ne_empty (s : String) : ("Ghost is active. " ++ s) ≠ "" := by
  intro h
  have h2 := congrArg String.data h
  rw [string_data_append, List.append_eq_nil] at h2
  exact absurd h2.1 (by decide)

/-- The provider's composed text is never empty, on either branch. -/
lemma provider_text_ne_empty (message : String) (img : Bool) (intent : String) :
    provider_text message img intent ≠ "" := by
  simp only [provider_text]
  split
  · exact ghost_active_ne_empty _
  · decide

/-- The provider's composed text is never the terminal fallback sentence. -/
lemma provider_text_ne_fallback (message : String) (img : Bool) (intent : String) :
    provider_text message img intent ≠
      "Ghost fallback: assistant core is online. Please retry in a moment." := by
  simp only [provider_text]
  split
  · exact ne_fallback_of_char6 _ (ghost_active_char6 _)
  · decide

/-- C9: every call to `generate_ai_response` returns an envelope whose text is
a non-empty string: the generated path produces the intent preamble plus the
bounded preview of the normalized message (both forms start with
`"Ghost is active."`), and the terminal fallback path returns a literal,
non-empty sentence. -/
theorem c9_generate_nonempty_text (message : String) (img : Bool) (st : AMOState)
    (now : ℤ) (routeArg : Option RouteDecision) (fault1 fault2 : Bool) :
    (generate_ai_response message img st now routeArg fault1 fault2).1.text ≠ "" := by
  cases fault1 <;>
    simp [generate_ai_response, provider_generate] <;>
    apply provider_text_ne_empty

/-- C1 counterexample: a request whose first provider invocation fails and
whose stabilized retry succeeds (the retry text is the generated sentence,
not the fallback literal) nevertheless carries `fallback_used = true`,
contradicting the claim that such a request yields `fallback_used = false`. -/
theorem c1_fallback_flag_counterexample :
    (generate_ai_response "hello" false (mkOptimizer 3 10 60) 0
        (some ⟨INTENT_CASUAL_CHAT, TIER_LIGHT, 5, 0, false, none⟩) true false).1.fallback_used
      = true ∧
    (generate_ai_response "hello" false (mkOptimizer 3 10 60) 0
        (some ⟨INTENT_CASUAL_CHAT, TIER_LIGHT, 5, 0, false, none⟩) true false).1.text
      = "Ghost is active. Light conversation mode enabled. Focus: \"hello\"." := by
  decide

/-- C1 amended: when the first provider invocation fails, the orchestrator
retries exactly once against the standard tier in stabilized mode, and the
returned envelope has `fallback_used = true` exactly when the FIRST invocation
failed — also when the stabilized retry succeeds; the fixed literal fallback
sentence would be returned only if the retry failed as well, which stabilized
mode prevents for the injected faults, so the text is never that sentence. -/
theorem c1_retry_and_fallback_flag (message : String) (img : Bool) (st : AMOState)
    (now : ℤ) (r : RouteDecision) (fault1 fault2 : Bool) :
    (generate_ai_response message img st now (some r) fault1 fault2).1.fallback_used
        = fault1 ∧
    (generate_ai_response message img st now (some r) fault1 fault2).2.2 =
      (if fault1 then [⟨r.model_tier, false⟩, ⟨TIER_STANDARD, true⟩]
        else [⟨r.model_tier, false⟩]) ∧
    (generate_ai_response message img st now (some r) fault1 fault2).1.text ≠
      "Ghost fallback: assistant core is online. Please retry in a moment." := by
  cases fault1 <;>
    simp [generate_ai_response, provider_generate] <;>
    apply provider_text_ne_fallback

/-! ## Claim C6: the frame sequence of the streaming emitter

The frozen claim says "one chunk frame per whitespace-delimited word".  The
source iterates `display_text.split(" ")` — a split at every single space —
which only coincides with whitespace-delimited words when the words of the
text are separated by exactly one space.  A display text with two consecutive
spaces produces an extra empty-word chunk. -/

/-- No `meta` frame among the chunk frames. -/
lemma countP_isMeta_chunks (ws : List String) :
    (ws.map fun w => Frame.chunk (w ++ " ")).countP (Frame.isMeta ·) = 0 := by
  induction ws with
  | nil => rfl
  | cons w t ih => simp [List.countP_cons, ih, Frame.isMeta]

/-- No `done` frame among the chunk frames. -/
lemma countP_isDone_chunks (ws : List String) :
    (ws.map fun w => Frame.chunk (w ++ " ")).countP (Frame.isDone ·) = 0 := by
  induction ws with
  | nil => rfl
  | cons w t ih => simp [List.countP_cons, ih, Frame.isDone]

/-- The chunk payloads of the mapped chunk frames, in order. -/
lemma filterMap_chunkText_chunks (ws : List String) :
    (ws.map fun w => Frame.chunk (w ++ " ")).filterMap Frame.chunkText =
      ws.map (fun w => w ++ " ") := by
  induction ws with
  | nil => rfl
  | cons w t ih => simp [List.filterMap_cons, Frame.chunkText, ih]

/-- C6 counterexample: for the finalized display text `"a  b"` (two spaces),
the emitter produces three chunk frames — `"a "`, `" "` (empty word) and
`"b "` — while the text has only two whitespace-delimited words, so the
frame sequence is not one chunk per whitespace-delimited word. -/
theorem c6_stream_counterexample :
    ¬ ((event_stream_frames false false ⟨"a  b", "a  b", false⟩).countP (Frame.isChunk ·) =
        (pySplit "a  b").length) := by
  decide

/-- C6 amended: for every finalized display text, the emitter produces
exactly one `meta` frame first, then one `chunk` frame per piece of the
text's single-space split (Python `split(" ")`, which equals the
whitespace-delimited words whenever the text's words are separated by single
spaces) with a trailing space appended, in original order, then exactly one
terminal `done` frame with no frame after it; in particular for the text
`"a b c"` the sequence is exactly `meta, chunk("a "), chunk("b "),
chunk("c "), done`. -/
theorem c6_stream_frames_amended (dm sit : Bool) (m : ModerationResult) :
    (event_stream_frames dm sit m).head? = some (Frame.meta dm sit) ∧
    (event_stream_frames dm sit m).getLast? =
      some (Frame.done m.moderated m.display_text
        (if m.moderated then some m.original_text else none)) ∧
    (event_stream_frames dm sit m).countP (Frame.isMeta ·) = 1 ∧
    (event_stream_frames dm sit m).countP (Frame.isDone ·) = 1 ∧
    (event_stream_frames dm sit m).filterMap Frame.chunkText =
      (splitSpaces m.display_text).map (fun w => w ++ " ") ∧
    event_stream_frames dm sit ⟨"a b c", "a b c", false⟩ =
      [Frame.meta dm sit, Frame.chunk "a ", Frame.chunk "b ", Frame.chunk "c ",
       Frame.done false "a b c" none] := by
  refine ⟨rfl, ?_, ?_, ?_, ?_, ?_⟩
  · unfold event_stream_frames
    rw [List.getLast?_append_cons]
    rfl
  · unfold event_stream_frames
    rw [List.countP_append, List.countP_cons, countP_isMeta_chunks]
    simp [Frame.isMeta, Frame.isDone]
  · unfold event_stream_frames
    rw [List.countP_append, List.countP_cons, countP_isDone_chunks]
    simp [Frame.isMeta, Frame.isDone]
  · unfold event_stream_frames
    rw [List.filterMap_append, List.filterMap_cons, filterMap_chunkText_chunks]
    simp [Frame.chunkText]
  · unfold event_stream_frames
    rw [show splitSpaces "a b c" = ["a", "b", "c"] from by decide]
    rfl
